import Mathlib

/-!
Shallow embedding of the `DataProcessorTester` pipeline from `network.py`
(a pandas-based ETL test harness for cricket player statistics), together
with theorems checking its natural-language specification.

Modelling conventions:
* A cell value is a `Value`: a string, a (rational) number, or `na`
  (pandas `NaN` / missing).  Rationals model pandas numerics exactly for
  the comparisons and equalities this code performs.
* A `Row` is an association list from column names to values; a cell that
  has no binding reads as `na`, matching how `pd.concat` fills missing
  columns with `NaN`.
* A `DataFrame` is a column list plus a row list.
* Operations that can raise (`KeyError` from `dropna(subset=...)`,
  `sort_values`, column projection, or `Series.__getitem__`) return
  `Except String _`.
* File absence (`os.path.exists`) is modelled by `Option DataFrame`
  arguments: `none` is an absent file.
-/

/-- A pandas cell value: a string, a numeric value (rational), or missing
(`NaN`). -/
inductive Value where
  | str (s : String)
  | num (q : ℚ)
  | na
deriving DecidableEq, Repr

/-- A row: association list from column names to cell values. -/
abbrev Row := List (String × Value)

/-- A dataframe: a list of column names and a list of rows. -/
structure DataFrame where
  cols : List String
  rows : List Row
deriving DecidableEq, Repr

/-- Reading a cell: a missing binding is `NaN`, as in pandas after
`concat` of frames with different columns. -/
def getCell (r : Row) (c : String) : Value :=
  (r.lookup c).getD .na

/-- Writing a cell: replace an existing binding, else append one. -/
def setCell : Row → String → Value → Row
  | [], c, v => [(c, v)]
  | (c', v') :: rest, c, v =>
    if c' == c then (c, v) :: rest else (c', v') :: setCell rest c v

theorem getCell_setCell_self (r : Row) (c : String) (v : Value) :
    getCell (setCell r c v) c = v := by
  induction r with
  | nil => simp [getCell, setCell, List.lookup]
  | cons p rest ih =>
    obtain ⟨c₀, v₀⟩ := p
    by_cases h : c₀ = c
    · subst h
      simp [setCell, getCell, List.lookup]
    · have h1 : (c₀ == c) = false := beq_eq_false_iff_ne.mpr h
      have h2 : (c == c₀) = false := beq_eq_false_iff_ne.mpr (Ne.symm h)
      simp only [setCell, h1, Bool.false_eq_true, if_false]
      simpa [getCell, List.lookup, h2] using ih

theorem getCell_setCell_ne (r : Row) (c c' : String) (v : Value) (h : c' ≠ c) :
    getCell (setCell r c v) c' = getCell r c' := by
  have hcc : (c' == c) = false := beq_eq_false_iff_ne.mpr h
  induction r with
  | nil => simp [getCell, setCell, List.lookup, hcc]
  | cons p rest ih =>
    obtain ⟨c₀, v₀⟩ := p
    by_cases h0 : c₀ = c
    · subst h0
      simp [setCell, getCell, List.lookup, hcc]
    · have h1 : (c₀ == c) = false := beq_eq_false_iff_ne.mpr h0
      by_cases h2 : c' = c₀
      · subst h2
        simp [setCell, h1, getCell, List.lookup]
      · have h3 : (c' == c₀) = false := beq_eq_false_iff_ne.mpr h2
        simp only [setCell, h1, Bool.false_eq_true, if_false]
        simpa [getCell, List.lookup, h3] using ih

/-! ### Numeric coercion: `pd.to_numeric(col, errors='coerce')` -/

/-- Digits of a numeral to a natural number. -/
def natOfDigits (l : List Char) : Nat :=
  l.foldl (fun n c => 10 * n + (c.toNat - 48)) 0

/-- Parse an unsigned decimal numeral (optionally with a fractional part). -/
def parseUnsigned (cs : List Char) : Option ℚ :=
  let intPart := cs.takeWhile (·.isDigit)
  let rest := cs.dropWhile (·.isDigit)
  match rest with
  | [] => if intPart.isEmpty then none else some (natOfDigits intPart : ℚ)
  | '.' :: fracCs =>
    if fracCs.all (·.isDigit) && !(intPart.isEmpty && fracCs.isEmpty) then
      some ((natOfDigits intPart : ℚ) + (natOfDigits fracCs : ℚ) / (10 ^ fracCs.length))
    else none
  | _ => none

/-- Parse a decimal numeral with optional sign.  Models the set of strings
pandas can coerce to a number. -/
def parseNum (s : String) : Option ℚ :=
  match s.toList with
  | '-' :: rest => (parseUnsigned rest).map (fun q => -q)
  | '+' :: rest => parseUnsigned rest
  | cs => parseUnsigned cs

/-- `pd.to_numeric(v, errors='coerce')` on one cell: numbers stay, `NaN`
stays, strings are parsed and fall back to `NaN` on failure.  Total: never
raises. -/
def toNumericCoerce (v : Value) : Value :=
  match v with
  | .num q => .num q
  | .na => .na
  | .str s =>
    match parseNum s with
    | some q => .num q
    | none => .na

/-- `processed_data[col] = pd.to_numeric(processed_data[col], errors='coerce')`
guarded by `if col in processed_data.columns`. -/
def coerceCol (df : DataFrame) (c : String) : DataFrame :=
  if c ∈ df.cols then
    ⟨df.cols, df.rows.map (fun r => setCell r c (toNumericCoerce (getCell r c)))⟩
  else df

theorem coerceCol_cols (df : DataFrame) (c : String) :
    (coerceCol df c).cols = df.cols := by
  unfold coerceCol
  split <;> rfl

/-! ### The transformer: `process_data` -/

/-- Bool test: the cell is missing. -/
def isNa (v : Value) : Bool :=
  match v with
  | .na => true
  | _ => false

/-- `v >= q` as pandas evaluates it on a numeric column: `NaN` compares
false. -/
def valGeQ (v : Value) (q : ℚ) : Bool :=
  match v with
  | .num x => q ≤ x
  | _ => false

/-- `v <= q` as pandas evaluates it on a numeric column: `NaN` compares
false. -/
def valLeQ (v : Value) (q : ℚ) : Bool :=
  match v with
  | .num x => x ≤ q
  | _ => false

/-- `v > q`: `NaN` compares false. -/
def valGtQ (v : Value) (q : ℚ) : Bool :=
  match v with
  | .num x => q < x
  | _ => false

/-- `processed_data.dropna(subset=['runs', 'wickets'])`: raises `KeyError`
when a subset column is absent, else keeps the rows where neither cell is
missing. -/
def dropnaRW (df : DataFrame) : Except String DataFrame :=
  if "runs" ∈ df.cols ∧ "wickets" ∈ df.cols then
    .ok ⟨df.cols, df.rows.filter (fun r => !isNa (getCell r "runs") && !isNa (getCell r "wickets"))⟩
  else .error "KeyError: dropna subset"

/-- `processed_data[(processed_data['age'] >= 15) & (processed_data['age'] <= 50)]`:
raises `KeyError` when `age` is absent. -/
def filterAge (df : DataFrame) : Except String DataFrame :=
  if "age" ∈ df.cols then
    .ok ⟨df.cols, df.rows.filter (fun r => valGeQ (getCell r "age") 15 && valLeQ (getCell r "age") 50)⟩
  else .error "KeyError: age"

/-- The classifier applied to each surviving row (`network.py` lines
60-66). -/
def determine_player_type (r : Row) : String :=
  if valGtQ (getCell r "runs") 500 && valGeQ (getCell r "wickets") 50 then
    "All-Rounder"
  else if valGtQ (getCell r "runs") 500 then
    "Batsman"
  else
    "Bowler"

/-- `processed_data['playerType'] = processed_data.apply(determine_player_type, axis=1)`. -/
def addPlayerType (df : DataFrame) : DataFrame :=
  ⟨if "playerType" ∈ df.cols then df.cols else df.cols ++ ["playerType"],
   df.rows.map (fun r => setCell r "playerType" (.str (determine_player_type r)))⟩

/-- `data.copy()`: a fresh frame with the same columns and rows. -/
def DataFrame.copy (df : DataFrame) : DataFrame :=
  ⟨df.cols, df.rows⟩

/-- The two local variables of `process_data`: the argument `data` and the
working copy `processed_data`.  Column assignments in the source all target
`processed_data`; threading the state makes the no-mutation contract a
provable statement. -/
structure PState where
  data : DataFrame
  processed : DataFrame
deriving DecidableEq, Repr

/-- `process_data`, statement by statement, returning the final variable
state together with the result (`network.py` lines 42-74, file I/O
elided). -/
def process_data_run (data : DataFrame) : PState × Except String DataFrame :=
  let s0 : PState := ⟨data, data.copy⟩
  let s1 : PState := { s0 with processed := coerceCol s0.processed "runs" }
  let s2 : PState := { s1 with processed := coerceCol s1.processed "wickets" }
  let s3 : PState := { s2 with processed := coerceCol s2.processed "age" }
  match dropnaRW s3.processed with
  | .error m => (s3, .error m)
  | .ok d4 =>
    let s4 : PState := { s3 with processed := d4 }
    match filterAge s4.processed with
    | .error m => (s4, .error m)
    | .ok d5 =>
      let s5 : PState := { s4 with processed := d5 }
      let s6 : PState := { s5 with processed := addPlayerType s5.processed }
      (s6, .ok s6.processed)

/-- `process_data`, as its caller sees it. -/
def process_data (data : DataFrame) : Except String DataFrame :=
  (process_data_run data).2

/-! ### Output reader: `read_output_data` -/

/-- The empty frame `pd.DataFrame()`. -/
def emptyDF : DataFrame := ⟨[], []⟩

/-- `pd.concat([a, b], ignore_index=True)`: row lists concatenate in
order; the column set is the union, keeping `a`'s order first. -/
def concatDF (a b : DataFrame) : DataFrame :=
  ⟨a.cols ++ b.cols.filter (fun c => c ∉ a.cols), a.rows ++ b.rows⟩

/-- `read_output_data` (`network.py` lines 76-87): each file argument is
`none` when the file does not exist, in which case that side is the empty
frame; the two frames are then concatenated, test rows first. -/
def read_output_data (test odi : Option DataFrame) : DataFrame :=
  let test_data := test.getD emptyDF
  let odi_data := odi.getD emptyDF
  concatDF test_data odi_data

/-! ### Sorting rows by `playerName` (`sort_values`) -/

/-- Lexicographic comparison of character lists by code point. -/
def charListLe : List Char → List Char → Bool
  | [], _ => true
  | _ :: _, [] => false
  | a :: as, b :: bs =>
    if a.toNat < b.toNat then true
    else if b.toNat < a.toNat then false
    else charListLe as bs

/-- String comparison used as the sort key order. -/
def strLe (a b : String) : Bool :=
  charListLe a.toList b.toList

/-- Total preorder on cell values used by `sort_values`: numbers first,
then strings, missing values last (pandas puts `NaN` last). -/
def valLe : Value → Value → Bool
  | .num a, .num b => decide (a ≤ b)
  | .num _, .str _ => true
  | .num _, .na => true
  | .str _, .num _ => false
  | .str a, .str b => strLe a b
  | .str _, .na => true
  | .na, .na => true
  | .na, _ => false

/-- Row order for `sort_values('playerName')`. -/
def rowLe (a b : Row) : Bool :=
  valLe (getCell a "playerName") (getCell b "playerName")

/-- Insert a row into an already sorted list, after every row that
compares `≤` to it — so insertion is stable. -/
def insertRow (r : Row) : List Row → List Row
  | [] => [r]
  | x :: xs => if rowLe x r then x :: insertRow r xs else r :: x :: xs

/-- Deterministic model of `sort_values('playerName')`: an insertion
sort by `playerName`.  Pandas' default `kind='quicksort'` guarantees only
a permutation of the rows ordered by the key — the relative order of rows
with equal keys is unspecified, since quicksort is documented as not
stable — and this executable model refines that guarantee by keeping ties
in input order.  `sortedByName` below states exactly what the library
guarantees; any property that depends on the tie order must be settled
against `sortedByName`, not against this function. -/
def sortRows (l : List Row) : List Row :=
  l.foldl (fun acc r => insertRow r acc) []

/-- What `sort_values('playerName')` guarantees about its result `s` for
input rows `l`: `s` is a permutation of `l` that is ordered by the
`playerName` key.  Rows with equal keys may appear in any relative order,
so every such `s` is an admissible outcome; `sortRows l` is one of
them. -/
def sortedByName (l s : List Row) : Prop :=
  l.Perm s ∧ s.Pairwise (fun a b => rowLe a b = true)

/-! ### The validator: `validate_output` -/

/-- Scalar equality as pandas `==` evaluates it: `NaN` equals nothing
(itself included), values of different kinds are unequal, strings and
numbers compare exactly. -/
def valEq : Value → Value → Bool
  | .str a, .str b => a == b
  | .num a, .num b => a == b
  | _, _ => false

/-- The fixed projection used by the validator. -/
def expected_cols : List String :=
  ["playerName", "age", "runs", "wickets", "eventType", "playerType"]

/-- `expected_data[expected_cols]` applied to one row. -/
def projRow (cols : List String) (r : Row) : Row :=
  cols.map (fun c => (c, getCell r c))

/-- The inner comparison loop (`network.py` lines 114-117): walk
`expected_cols` in order; a column absent from the actual frame raises
`KeyError` when reached; a mismatch stops with `false`; reaching the end
yields `true`. -/
def compareFields : List String → List String → Row → Row → Except String Bool
  | [], _, _, _ => .ok true
  | c :: cs, acols, e, a =>
    if c ∈ acols then
      if valEq (getCell e c) (getCell a c) then compareFields cs acols e a
      else .ok false
    else .error ("KeyError: " ++ c)

/-- Does an actual row match the expected row's `playerName`
(`actual_df['playerName'] == player_name`)? -/
def nameMatches (e : Row) (a : Row) : Bool :=
  valEq (getCell a "playerName") (getCell e "playerName")

/-- One iteration of the validation loop: find the first matching actual
row; none means `FAIL`, otherwise compare the projected fields. -/
def verdictE (acols : List String) (actRows : List Row) (e : Row) : Except String Row :=
  match actRows.find? (nameMatches e) with
  | none => .ok (setCell e "Result" (.str "FAIL"))
  | some a =>
    match compareFields expected_cols acols e a with
    | .ok b => .ok (setCell e "Result" (.str (if b then "PASS" else "FAIL")))
    | .error m => .error m

/-- The validation loop over all expected rows. -/
def rowVerdicts (acols : List String) (actRows : List Row) : List Row → Except String (List Row)
  | [] => .ok []
  | e :: es =>
    match verdictE acols actRows e, rowVerdicts acols actRows es with
    | .ok r, .ok rs => .ok (r :: rs)
    | .error m, _ => .error m
    | .ok _, .error m => .error m

/-- The expected rows as the validator prepares them: projected onto
`expected_cols` and sorted by `playerName`. -/
def expRowsSorted (expected : DataFrame) : List Row :=
  sortRows (expected.rows.map (projRow expected_cols))

/-- `validate_output` (`network.py` lines 89-123, file I/O elided):
projecting `expected_data` raises when a projection column is absent;
`sort_values('playerName')` on the actual frame raises when it has no
`playerName` column; otherwise each expected row gets a `Result` verdict. -/
def validate_output (expected actual : DataFrame) : Except String DataFrame :=
  if expected_cols.all (fun c => c ∈ expected.cols) then
    if "playerName" ∈ actual.cols then
      match rowVerdicts actual.cols (sortRows actual.rows) (expRowsSorted expected) with
      | .ok rs => .ok ⟨expected_cols ++ ["Result"], rs⟩
      | .error m => .error m
    else .error "KeyError: playerName"
  else .error "KeyError: expected projection"

/-- The verdict of one expected row, written as a pure function: used to
state what `validate_output` computes on its non-raising paths. -/
def rowVerdictPure (actRows : List Row) (e : Row) : Value :=
  match actRows.find? (nameMatches e) with
  | none => .str "FAIL"
  | some a =>
    if expected_cols.all (fun c => valEq (getCell e c) (getCell a c)) then .str "PASS"
    else .str "FAIL"

/-! ### The schema checker: `validate_schema` -/

/-- The dtypes this pipeline distinguishes. -/
inductive Dtype where
  | int64
  | float64
  | obj
deriving DecidableEq, Repr

/-- Is the cell a string? -/
def isStr (v : Value) : Bool :=
  match v with
  | .str _ => true
  | _ => false

/-- Is the cell an integral number? -/
def isIntegral (v : Value) : Bool :=
  match v with
  | .num q => q.den == 1
  | _ => false

/-- The dtype pandas infers for a column from its values: any string makes
it `object`; any `NaN` among numbers makes it `float64`; all integral
numbers make it `int64`; otherwise `float64`. -/
def inferDtype (cells : List Value) : Dtype :=
  if cells.any isStr then .obj
  else if cells.any isNa then .float64
  else if cells.all isIntegral then .int64
  else .float64

/-- The cells of one column. -/
def colCells (df : DataFrame) (c : String) : List Value :=
  df.rows.map (fun r => getCell r c)

/-- The two column kinds in the expected schema. -/
inductive SType where
  | intT
  | strT
deriving DecidableEq, Repr

/-- The fixed expected schema (`network.py` lines 127-134). -/
def expected_schema : List (String × SType) :=
  [("eventType", .strT), ("playerName", .strT), ("age", .intT),
   ("runs", .intT), ("wickets", .intT), ("playerType", .strT)]

/-- Error message for an absent column. -/
def missingMsg (c : String) : String :=
  "Column '" ++ c ++ "' is missing"

/-- Error message for a non-integer column. -/
def intMsg (c : String) : String :=
  "Column '" ++ c ++ "' should be integer type"

/-- Error message for a non-string column. -/
def strMsg (c : String) : String :=
  "Column '" ++ c ++ "' should be string type"

/-- Does `pd.to_numeric(col, downcast='integer')` succeed?  It raises only
when some cell is a string that does not parse as a number; it never
raises for numeric cells or `NaN`, whether or not they fit in an integer
(`downcast` failure is silent). -/
def toNumericOk (cells : List Value) : Bool :=
  cells.all fun v =>
    match v with
    | .num _ => true
    | .na => true
    | .str s => (parseNum s).isSome

/-- `pd.api.types.is_string_dtype`: true for `object` columns. -/
def isStringDtype (d : Dtype) : Bool :=
  d == .obj

/-- The check `validate_schema` performs for one schema column: `none`
when the column conforms, `some msg` when it contributes an error.  A
missing column yields only the missing-column message (`continue` skips
the type check). -/
def schemaCheckCol (df : DataFrame) (c : String) (t : SType) : Option String :=
  if c ∈ df.cols then
    match t with
    | .intT =>
      if inferDtype (colCells df c) = .int64 then none
      else if toNumericOk (colCells df c) then none
      else some (intMsg c)
    | .strT =>
      if isStringDtype (inferDtype (colCells df c)) then none
      else some (strMsg c)
  else some (missingMsg c)

/-- `validate_schema` (`network.py` lines 125-160): fold over the expected
schema, keeping the running validity flag and the accumulated error
list. -/
def validate_schema (df : DataFrame) : Bool × List String :=
  expected_schema.foldl
    (fun acc ct =>
      match schemaCheckCol df ct.1 ct.2 with
      | none => acc
      | some e => (false, acc.2 ++ [e]))
    (true, [])

/-! ### Supporting lemmas -/

theorem toNumericCoerce_na_or_num (v : Value) :
    toNumericCoerce v = Value.na ∨ ∃ q, toNumericCoerce v = Value.num q := by
  cases v with
  | str s =>
    cases h : parseNum s with
    | none => left; simp [toNumericCoerce, h]
    | some q => right; exact ⟨q, by simp [toNumericCoerce, h]⟩
  | num q => right; exact ⟨q, rfl⟩
  | na => left; rfl

theorem valGeQ_num (v : Value) (q : ℚ) (h : valGeQ v q = true) :
    ∃ x, v = Value.num x ∧ q ≤ x := by
  cases v <;> simp [valGeQ] at h ⊢
  exact h

theorem valLeQ_num (v : Value) (q : ℚ) (h : valLeQ v q = true) :
    ∃ x, v = Value.num x ∧ x ≤ q := by
  cases v <;> simp [valLeQ] at h ⊢
  exact h

theorem dropnaRW_ok (df d' : DataFrame) (h : dropnaRW df = .ok d') :
    d'.rows = df.rows.filter
      (fun r => !isNa (getCell r "runs") && !isNa (getCell r "wickets")) := by
  unfold dropnaRW at h
  split at h
  · cases h; rfl
  · cases h

theorem filterAge_ok (df d' : DataFrame) (h : filterAge df = .ok d') :
    d'.rows = df.rows.filter
      (fun r => valGeQ (getCell r "age") 15 && valLeQ (getCell r "age") 50) := by
  unfold filterAge at h
  split at h
  · cases h; rfl
  · cases h

/-! ### Claim C2: the classifier -/

/-- C2: on any record whose `runs` and `wickets` cells are numeric (as is
every record reaching the classification step of `process_data`),
`determine_player_type` yields exactly one of the three player types:
`"All-Rounder"` iff `runs > 500 ∧ wickets ≥ 50`, `"Batsman"` iff
`runs > 500 ∧ wickets < 50`, and `"Bowler"` iff `runs ≤ 500`, regardless
of wickets. -/
theorem determine_player_type_spec (r : Row) (rq wq : ℚ)
    (hr : getCell r "runs" = Value.num rq) (hw : getCell r "wickets" = Value.num wq) :
    (determine_player_type r = "All-Rounder" ∨ determine_player_type r = "Batsman" ∨
      determine_player_type r = "Bowler") ∧
    (determine_player_type r = "All-Rounder" ↔ 500 < rq ∧ 50 ≤ wq) ∧
    (determine_player_type r = "Batsman" ↔ 500 < rq ∧ wq < 50) ∧
    (determine_player_type r = "Bowler" ↔ rq ≤ 500) := by
  have sAB : ("All-Rounder" : String) ≠ "Batsman" := by decide
  have sAC : ("All-Rounder" : String) ≠ "Bowler" := by decide
  have sBC : ("Batsman" : String) ≠ "Bowler" := by decide
  unfold determine_player_type
  rw [hr, hw]
  by_cases h1 : 500 < rq
  · by_cases h2 : 50 ≤ wq
    · simp [valGtQ, valGeQ, h1, h2, sAB, sAC, le_of_lt, not_le.mpr h1]
    · simp [valGtQ, valGeQ, h1, h2, sAB.symm, sBC, not_le.mp h2, not_le.mpr h1]
  · simp [valGtQ, valGeQ, h1, sAC.symm, sBC.symm, le_of_not_lt h1]

/-- Concrete record from the claim: runs 400, wickets 999. -/
def rC2 : Row := [("runs", Value.num 400), ("wickets", Value.num 999)]

theorem determine_player_type_spec_witness :
    (determine_player_type rC2 = "All-Rounder" ∨ determine_player_type rC2 = "Batsman" ∨
      determine_player_type rC2 = "Bowler") ∧
    (determine_player_type rC2 = "All-Rounder" ↔ 500 < (400 : ℚ) ∧ 50 ≤ (999 : ℚ)) ∧
    (determine_player_type rC2 = "Batsman" ↔ 500 < (400 : ℚ) ∧ (999 : ℚ) < 50) ∧
    (determine_player_type rC2 = "Bowler" ↔ (400 : ℚ) ≤ 500) :=
  determine_player_type_spec rC2 400 999 (by decide) (by decide)

/-! ### Claim C7: the output reader -/

/-- C7: `read_output_data` treats an absent file (`none`) as an empty
frame rather than raising (it is a total function of the two optional
frames), and returns the concatenation of the two row lists in order,
test rows first; when only the odi file is missing the rows are exactly
the test rows. -/
theorem read_output_data_spec (t : DataFrame) (tO o : Option DataFrame) :
    (read_output_data tO o).rows = (tO.getD emptyDF).rows ++ (o.getD emptyDF).rows ∧
    (read_output_data (some t) none).rows = t.rows ∧
    (read_output_data none none).rows = [] := by
  refine ⟨?_, ?_, rfl⟩
  · cases tO <;> cases o <;> simp [read_output_data, concatDF, emptyDF]
  · simp [read_output_data, concatDF, emptyDF]

/-! ### Claim C9: `process_data` does not mutate its argument -/

/-- C9: running `process_data` statement by statement, with the two local
dataframe variables threaded explicitly, leaves the caller's `data`
unchanged: the body copies the input first and every later write targets
the copy. -/
theorem process_data_no_mutation (d : DataFrame) :
    ((process_data_run d).1).data = d := by
  simp only [process_data_run]
  split
  · rfl
  · split
    · rfl
    · rfl

/-! ### Claim C8: numeric coercion never raises, bad cells become missing -/

/-- C8: the coercion step of `process_data` is a total function (no
exception path exists); after coercing column `c`, every cell of `c` is
either missing or numeric; a cell holding a string that does not parse as
a number becomes missing. -/
theorem coerce_missing_spec (df : DataFrame) (c : String) (r : Row) (v : Value) (s : String)
    (h1 : c ∈ df.cols) (h2 : r ∈ (coerceCol df c).rows) (hs : parseNum s = none) :
    (getCell r c = Value.na ∨ ∃ q, getCell r c = Value.num q) ∧
    (toNumericCoerce v = Value.na ∨ ∃ q, toNumericCoerce v = Value.num q) ∧
    toNumericCoerce (Value.str s) = Value.na := by
  refine ⟨?_, toNumericCoerce_na_or_num v, by simp [toNumericCoerce, hs]⟩
  unfold coerceCol at h2
  rw [if_pos h1] at h2
  simp only [List.mem_map] at h2
  obtain ⟨r0, _, rfl⟩ := h2
  rw [getCell_setCell_self]
  exact toNumericCoerce_na_or_num (getCell r0 c)

/-- Concrete frame with one non-numeric `runs` cell. -/
def dfC8 : DataFrame := ⟨["runs"], [[("runs", Value.str "abc")]]⟩

theorem coerce_missing_spec_witness :
    toNumericCoerce (Value.str "abc") = Value.na :=
  (coerce_missing_spec dfC8 "runs" [("runs", Value.na)] Value.na "abc"
    (by decide) (by decide) (by decide)).2.2

/-! ### Claim C1: invariants of the processed dataset -/

/-- C1: every row of a successful `process_data` result has a numeric age
between 15 and 50 inclusive, and non-missing `runs` and `wickets`. -/
theorem process_data_invariant (d out : DataFrame) (h : process_data d = .ok out)
    (r : Row) (hr : r ∈ out.rows) :
    (∃ q, getCell r "age" = Value.num q ∧ (15 : ℚ) ≤ q ∧ q ≤ 50) ∧
    getCell r "runs" ≠ Value.na ∧ getCell r "wickets" ≠ Value.na := by
  simp only [process_data, process_data_run] at h
  cases hdrop : dropnaRW (coerceCol (coerceCol (coerceCol d.copy "runs") "wickets") "age") with
  | error m => rw [hdrop] at h; simp at h
  | ok d4 =>
    rw [hdrop] at h
    dsimp only at h
    cases hage : filterAge d4 with
    | error m => rw [hage] at h; simp at h
    | ok d5 =>
      rw [hage] at h
      simp only [Except.ok.injEq] at h
      cases h
      simp only [addPlayerType, List.mem_map] at hr
      obtain ⟨r5, hr5, rfl⟩ := hr
      have hga : getCell (setCell r5 "playerType" (.str (determine_player_type r5))) "age"
          = getCell r5 "age" := getCell_setCell_ne _ _ _ _ (by decide)
      have hgr : getCell (setCell r5 "playerType" (.str (determine_player_type r5))) "runs"
          = getCell r5 "runs" := getCell_setCell_ne _ _ _ _ (by decide)
      have hgw : getCell (setCell r5 "playerType" (.str (determine_player_type r5))) "wickets"
          = getCell r5 "wickets" := getCell_setCell_ne _ _ _ _ (by decide)
      rw [hga, hgr, hgw]
      rw [filterAge_ok d4 d5 hage] at hr5
      rw [List.mem_filter] at hr5
      obtain ⟨hr4, hcond⟩ := hr5
      rw [Bool.and_eq_true] at hcond
      obtain ⟨hge, hle⟩ := hcond
      obtain ⟨x, hx, h15⟩ := valGeQ_num _ _ hge
      obtain ⟨y, hy, h50⟩ := valLeQ_num _ _ hle
      rw [hx] at hy
      cases hy
      rw [dropnaRW_ok _ _ hdrop] at hr4
      rw [List.mem_filter] at hr4
      obtain ⟨_, hcond4⟩ := hr4
      rw [Bool.and_eq_true] at hcond4
      obtain ⟨hrn, hwn⟩ := hcond4
      refine ⟨⟨x, hx, h15, h50⟩, ?_, ?_⟩
      · intro hcontra
        rw [hcontra] at hrn
        simp [isNa] at hrn
      · intro hcontra
        rw [hcontra] at hwn
        simp [isNa] at hwn

/-- Concrete input for the processed-data invariant. -/
def dC1 : DataFrame :=
  ⟨["age", "runs", "wickets"],
   [[("age", Value.num 30), ("runs", Value.num 600), ("wickets", Value.num 60)]]⟩

/-- The frame `process_data` produces for `dC1`. -/
def outC1 : DataFrame :=
  ⟨["age", "runs", "wickets", "playerType"],
   [[("age", Value.num 30), ("runs", Value.num 600), ("wickets", Value.num 60),
     ("playerType", Value.str "All-Rounder")]]⟩

theorem process_data_invariant_witness :
    getCell [("age", Value.num 30), ("runs", Value.num 600), ("wickets", Value.num 60),
      ("playerType", Value.str "All-Rounder")] "runs" ≠ Value.na ∧
    getCell [("age", Value.num 30), ("runs", Value.num 600), ("wickets", Value.num 60),
      ("playerType", Value.str "All-Rounder")] "wickets" ≠ Value.na :=
  (process_data_invariant dC1 outC1 rfl
    [("age", Value.num 30), ("runs", Value.num 600), ("wickets", Value.num 60),
      ("playerType", Value.str "All-Rounder")] (by decide)).2

/-! ### Claims C4 and C5: the schema checker -/

theorem validate_schema_foldl (df : DataFrame) (l : List (String × SType))
    (b : Bool) (es : List String) :
    (l.foldl
      (fun acc ct =>
        match schemaCheckCol df ct.1 ct.2 with
        | none => acc
        | some e => (false, acc.2 ++ [e]))
      (b, es))
    = (b && (l.filterMap (fun ct => schemaCheckCol df ct.1 ct.2)).isEmpty,
       es ++ l.filterMap (fun ct => schemaCheckCol df ct.1 ct.2)) := by
  induction l generalizing b es with
  | nil => simp
  | cons x xs ih =>
    cases hx : schemaCheckCol df x.1 x.2 with
    | none => simp [List.foldl, hx, List.filterMap_cons, ih b es]
    | some e => simp [List.foldl, hx, List.filterMap_cons, ih false (es ++ [e])]

/-- C4: `schema_valid` is false iff the error list is non-empty; the
error list is exactly one optional message per schema column in order;
and an absent column contributes only the missing-column message, never a
type message. -/
theorem validate_schema_spec (df : DataFrame) :
    ((validate_schema df).1 = false ↔ (validate_schema df).2 ≠ []) ∧
    (validate_schema df).2
      = expected_schema.filterMap (fun ct => schemaCheckCol df ct.1 ct.2) ∧
    (∀ c t, (c, t) ∈ expected_schema → c ∉ df.cols →
      schemaCheckCol df c t = some (missingMsg c)) := by
  unfold validate_schema
  rw [validate_schema_foldl]
  refine ⟨?_, by simp, ?_⟩
  · cases hL : expected_schema.filterMap (fun ct => schemaCheckCol df ct.1 ct.2) with
    | nil => simp
    | cons x xs => simp
  · intro c t _ hnc
    unfold schemaCheckCol
    rw [if_neg hnc]

theorem validate_schema_spec_witness :
    ((validate_schema emptyDF).1 = false ↔ (validate_schema emptyDF).2 ≠ []) :=
  (validate_schema_spec emptyDF).1

/-- All the ways one schema column can produce an error message. -/
theorem schemaCheckCol_some (df : DataFrame) (c : String) (t : SType) (m : String)
    (h : schemaCheckCol df c t = some m) :
    (m = missingMsg c ∧ c ∉ df.cols) ∨
    (t = .intT ∧ m = intMsg c ∧ c ∈ df.cols ∧
      inferDtype (colCells df c) ≠ .int64 ∧ toNumericOk (colCells df c) = false) ∨
    (t = .strT ∧ m = strMsg c ∧ c ∈ df.cols ∧
      isStringDtype (inferDtype (colCells df c)) = false) := by
  unfold schemaCheckCol at h
  by_cases hc : c ∈ df.cols
  · rw [if_pos hc] at h
    cases t with
    | intT =>
      by_cases hd : inferDtype (colCells df c) = .int64
      · rw [if_pos hd] at h; cases h
      · rw [if_neg hd] at h
        by_cases hok : toNumericOk (colCells df c) = true
        · rw [if_pos hok] at h; cases h
        · rw [if_neg hok] at h
          cases h
          exact Or.inr (Or.inl ⟨rfl, rfl, hc, hd, by simpa using hok⟩)
    | strT =>
      by_cases hs : isStringDtype (inferDtype (colCells df c)) = true
      · rw [if_pos hs] at h; cases h
      · rw [if_neg hs] at h
        cases h
        exact Or.inr (Or.inr ⟨rfl, rfl, hc, by simpa using hs⟩)
  · rw [if_neg hc] at h
    cases h
    exact Or.inl ⟨rfl, hc⟩

/-- C5 (amended): a present integer-schema column contributes the
integer-type error message iff its dtype is not integer AND some cell
cannot be coerced to numeric at all; columns held as a wider numeric type
are accepted whether or not the values can be downcast to integer. -/
theorem schema_int_column_spec (df : DataFrame) (c : String)
    (h1 : (c, SType.intT) ∈ expected_schema) (h2 : c ∈ df.cols) :
    intMsg c ∈ (validate_schema df).2 ↔
      (inferDtype (colCells df c) ≠ Dtype.int64 ∧ toNumericOk (colCells df c) = false) := by
  have herrs := (validate_schema_spec df).2.1
  rw [herrs, List.mem_filterMap]
  have hc3 : c = "age" ∨ c = "runs" ∨ c = "wickets" := by
    simpa [expected_schema] using h1
  constructor
  · rintro ⟨ct, hct, hx⟩
    have hct6 : ct = ("eventType", SType.strT) ∨ ct = ("playerName", SType.strT) ∨
        ct = ("age", SType.intT) ∨ ct = ("runs", SType.intT) ∨
        ct = ("wickets", SType.intT) ∨ ct = ("playerType", SType.strT) := by
      simpa [expected_schema] using hct
    rcases schemaCheckCol_some df ct.1 ct.2 _ hx with ⟨hm, _⟩ | ⟨_, hm, _, hd, hok⟩ | ⟨_, hm, _, _⟩ <;>
      rcases hct6 with rfl | rfl | rfl | rfl | rfl | rfl <;>
      rcases hc3 with rfl | rfl | rfl <;>
      first
        | (exact absurd hm (by decide))
        | (exact ⟨hd, hok⟩)
  · rintro ⟨hd, hok⟩
    refine ⟨(c, SType.intT), h1, ?_⟩
    have hok' : ¬ (toNumericOk (colCells df c) = true) := by simp [hok]
    unfold schemaCheckCol
    rw [if_pos h2, if_neg hd, if_neg hok']

/-- The counterexample frame: all six schema columns present, every
column well-typed except `age`, which holds the non-integral number
`3/2` (a float column whose value cannot be downcast to integer). -/
def dfC5 : DataFrame :=
  ⟨["eventType", "playerName", "age", "runs", "wickets", "playerType"],
   [[("eventType", Value.str "t"), ("playerName", Value.str "A"),
     ("age", Value.num (mkRat 3 2)), ("runs", Value.num 100),
     ("wickets", Value.num 5), ("playerType", Value.str "Bowler")]]⟩

/-- C5 counterexample: `age` is present with a non-integer dtype and its
value 3/2 cannot be downcast to integer, yet `validate_schema` reports
the schema valid with no error — the claim's "only when the values can be
downcast to integer" does not hold. -/
theorem validate_schema_downcast_counterexample :
    inferDtype (colCells dfC5 "age") ≠ Dtype.int64 ∧
    isIntegral (Value.num (mkRat 3 2)) = false ∧
    validate_schema dfC5 = (true, []) := by
  refine ⟨by decide, by decide, by decide⟩

theorem schema_int_column_spec_witness :
    intMsg "age" ∈ (validate_schema dfC5).2 ↔
      (inferDtype (colCells dfC5 "age") ≠ Dtype.int64 ∧
        toNumericOk (colCells dfC5 "age") = false) :=
  schema_int_column_spec dfC5 "age" (by decide) (by decide)

/-! ### Claims C3 and C10: the validator -/

theorem compareFields_ok (cs acols : List String) (e a : Row) (b : Bool)
    (h : compareFields cs acols e a = .ok b) :
    b = cs.all (fun c => valEq (getCell e c) (getCell a c)) := by
  induction cs with
  | nil =>
    simp only [compareFields, Except.ok.injEq] at h
    simp [← h]
  | cons c cs ih =>
    simp only [compareFields] at h
    by_cases hc : c ∈ acols
    · rw [if_pos hc] at h
      by_cases hv : valEq (getCell e c) (getCell a c) = true
      · rw [if_pos hv] at h
        rw [List.all_cons, hv, Bool.true_and]
        exact ih h
      · rw [if_neg hv] at h
        simp only [Except.ok.injEq] at h
        rw [List.all_cons, ← h]
        simp [Bool.eq_false_iff.mpr hv]
    · rw [if_neg hc] at h
      cases h

theorem verdictE_ok (acols : List String) (actRows : List Row) (e r : Row)
    (h : verdictE acols actRows e = .ok r) :
    r = setCell e "Result" (rowVerdictPure actRows e) := by
  unfold verdictE at h
  unfold rowVerdictPure
  cases hf : actRows.find? (nameMatches e) with
  | none =>
    rw [hf] at h
    simp only [Except.ok.injEq] at h
    rw [← h]
  | some a =>
    rw [hf] at h
    dsimp only at h ⊢
    cases hcf : compareFields expected_cols acols e a with
    | error m => rw [hcf] at h; cases h
    | ok b =>
      rw [hcf] at h
      simp only [Except.ok.injEq] at h
      rw [← h, compareFields_ok _ _ _ _ _ hcf]
      cases hall : expected_cols.all (fun c => valEq (getCell e c) (getCell a c)) <;> simp [hall]

theorem rowVerdicts_ok (acols : List String) (actRows : List Row) (es rs : List Row)
    (h : rowVerdicts acols actRows es = .ok rs) :
    rs = es.map (fun e => setCell e "Result" (rowVerdictPure actRows e)) := by
  induction es generalizing rs with
  | nil =>
    simp only [rowVerdicts, Except.ok.injEq] at h
    simp [← h]
  | cons e es ih =>
    simp only [rowVerdicts] at h
    cases hv : verdictE acols actRows e with
    | error m => rw [hv] at h; cases h
    | ok r =>
      rw [hv] at h
      cases hrest : rowVerdicts acols actRows es with
      | error m => rw [hrest] at h; cases h
      | ok rs' =>
        rw [hrest] at h
        simp only [Except.ok.injEq] at h
        rw [← h, List.map_cons, verdictE_ok _ _ _ _ hv, ih _ hrest]

/-- C3: on every non-raising run, the validator's result rows are exactly
the expected rows (projected and sorted), each tagged with the verdict of
`rowVerdictPure`: `FAIL` when the actual frame has no row with the same
`playerName`, else `PASS` exactly when the first matching row agrees with
the expected row on every projected field under exact (`NaN`-strict)
equality. -/
theorem validate_output_spec (expected actual res : DataFrame)
    (h : validate_output expected actual = .ok res) :
    res.rows = (expRowsSorted expected).map
      (fun e => setCell e "Result" (rowVerdictPure (sortRows actual.rows) e)) := by
  unfold validate_output at h
  split at h
  · split at h
    · cases hrv : rowVerdicts actual.cols (sortRows actual.rows) (expRowsSorted expected) with
      | error m => rw [hrv] at h; cases h
      | ok rs =>
        rw [hrv] at h
        simp only [Except.ok.injEq] at h
        rw [← h]
        exact rowVerdicts_ok _ _ _ _ hrv
    · cases h
  · cases h

/-- Expected frame for the validator witnesses. -/
def expW : DataFrame :=
  ⟨["playerName", "age", "runs", "wickets", "eventType", "playerType"],
   [[("playerName", Value.str "A"), ("age", Value.num 30), ("runs", Value.num 600),
     ("wickets", Value.num 60), ("eventType", Value.str "test"),
     ("playerType", Value.str "All-Rounder")]]⟩

/-- Actual frame equal to `expW` row for row. -/
def actW : DataFrame :=
  ⟨["playerName", "age", "runs", "wickets", "eventType", "playerType"],
   [[("playerName", Value.str "A"), ("age", Value.num 30), ("runs", Value.num 600),
     ("wickets", Value.num 60), ("eventType", Value.str "test"),
     ("playerType", Value.str "All-Rounder")]]⟩

/-- What `validate_output expW actW` returns. -/
def resW : DataFrame :=
  ⟨["playerName", "age", "runs", "wickets", "eventType", "playerType", "Result"],
   [[("playerName", Value.str "A"), ("age", Value.num 30), ("runs", Value.num 600),
     ("wickets", Value.num 60), ("eventType", Value.str "test"),
     ("playerType", Value.str "All-Rounder"), ("Result", Value.str "PASS")]]⟩

theorem validate_output_spec_witness :
    resW.rows = (expRowsSorted expW).map
      (fun e => setCell e "Result" (rowVerdictPure (sortRows actW.rows) e)) :=
  validate_output_spec expW actW resW rfl

/-- C10: when the expected frame has the six projection columns and is
non-empty but the actual frame has no `playerName` column — in
particular the empty frame `read_output_data` yields when both output
files are absent — `validate_output` raises (`KeyError` from
`sort_values`) instead of returning an all-`FAIL` result. -/
theorem validate_output_missing_playerName (expected actual : DataFrame)
    (hexp : (expected_cols.all fun c => c ∈ expected.cols) = true)
    (hne : expected.rows ≠ [])
    (hnp : "playerName" ∉ actual.cols) :
    validate_output expected actual = .error "KeyError: playerName" ∧
    "playerName" ∉ (read_output_data none none).cols := by
  refine ⟨?_, by decide⟩
  unfold validate_output
  rw [if_pos hexp, if_neg hnp]

theorem validate_output_missing_playerName_witness :
    validate_output expW (read_output_data none none) = .error "KeyError: playerName" ∧
    "playerName" ∉ (read_output_data none none).cols :=
  validate_output_missing_playerName expW (read_output_data none none)
    (by decide) (by decide) (by decide)

/-! ### Claim C6: first-match semantics and sort stability -/

theorem charListLe_refl (l : List Char) : charListLe l l = true := by
  induction l with
  | nil => rfl
  | cons x xs ih => simp [charListLe, ih]

theorem charListLe_total (a b : List Char) :
    charListLe a b = true ∨ charListLe b a = true := by
  induction a generalizing b with
  | nil => left; rfl
  | cons x xs ih =>
    cases b with
    | nil => right; rfl
    | cons y ys =>
      rcases Nat.lt_trichotomy x.toNat y.toNat with hlt | heq | hgt
      · left; simp [charListLe, hlt]
      · rcases ih ys with h | h
        · left; simp [charListLe, heq, h]
        · right; simp [charListLe, heq.symm, h]
      · right; simp [charListLe, hgt]

theorem charListLe_trans (a b c : List Char)
    (h1 : charListLe a b = true) (h2 : charListLe b c = true) :
    charListLe a c = true := by
  induction a generalizing b c with
  | nil => rfl
  | cons x xs ih =>
    cases b with
    | nil => simp [charListLe] at h1
    | cons y ys =>
      cases c with
      | nil => simp [charListLe] at h2
      | cons z zs =>
        simp only [charListLe] at h1 h2 ⊢
        by_cases hxy : x.toNat < y.toNat
        · by_cases hyz : y.toNat < z.toNat
          · simp [Nat.lt_trans hxy hyz]
          · by_cases hzy : z.toNat < y.toNat
            · simp [hyz, hzy] at h2
            · have hyz' : y.toNat = z.toNat := Nat.le_antisymm (Nat.le_of_not_lt hzy) (Nat.le_of_not_lt hyz)
              simp [hyz' ▸ hxy]
        · by_cases hyx : y.toNat < x.toNat
          · simp [hxy, hyx] at h1
          · have hxy' : x.toNat = y.toNat := Nat.le_antisymm (Nat.le_of_not_lt hyx) (Nat.le_of_not_lt hxy)
            rw [if_neg hxy, if_neg hyx] at h1
            by_cases hyz : y.toNat < z.toNat
            · simp [hxy' ▸ hyz]
            · by_cases hzy : z.toNat < y.toNat
              · simp [hyz, hzy] at h2
              · rw [if_neg hyz, if_neg hzy] at h2
                have hxz : ¬ x.toNat < z.toNat := by omega
                have hzx : ¬ z.toNat < x.toNat := by omega
                rw [if_neg hxz, if_neg hzx]
                exact ih ys zs h1 h2

theorem strLe_refl (s : String) : strLe s s = true :=
  charListLe_refl s.toList

theorem strLe_total (a b : String) : strLe a b = true ∨ strLe b a = true :=
  charListLe_total a.toList b.toList

theorem strLe_trans (a b c : String) (h1 : strLe a b = true) (h2 : strLe b c = true) :
    strLe a c = true :=
  charListLe_trans a.toList b.toList c.toList h1 h2

theorem valLe_refl (v : Value) : valLe v v = true := by
  cases v with
  | str s => exact strLe_refl s
  | num q => simp [valLe]
  | na => rfl

theorem valLe_total (a b : Value) : valLe a b = true ∨ valLe b a = true := by
  cases a <;> cases b <;> simp [valLe]
  · exact strLe_total _ _
  · exact le_total _ _

theorem valLe_trans (a b c : Value) (h1 : valLe a b = true) (h2 : valLe b c = true) :
    valLe a c = true := by
  cases a <;> cases b <;> cases c <;> simp [valLe] at h1 h2 ⊢
  · exact strLe_trans _ _ _ h1 h2
  · exact le_trans h1 h2

theorem rowLe_total (a b : Row) : rowLe a b = true ∨ rowLe b a = true :=
  valLe_total _ _

theorem rowLe_trans (a b c : Row) (h1 : rowLe a b = true) (h2 : rowLe b c = true) :
    rowLe a c = true :=
  valLe_trans _ _ _ h1 h2

/-- The rows of a frame in sorted order, pairwise. -/
def pairwiseLe (l : List Row) : Prop :=
  l.Pairwise (fun a b => rowLe a b = true)

theorem mem_insertRow (r x : Row) (l : List Row) :
    x ∈ insertRow r l ↔ x = r ∨ x ∈ l := by
  induction l with
  | nil => simp [insertRow]
  | cons y ys ih =>
    by_cases hle : rowLe y r = true
    · simp only [insertRow, if_pos hle, List.mem_cons, ih]
      tauto
    · simp only [insertRow, if_neg hle, List.mem_cons]

theorem pairwise_insertRow (r : Row) (l : List Row) (h : pairwiseLe l) :
    pairwiseLe (insertRow r l) := by
  induction l with
  | nil => simp [insertRow, pairwiseLe]
  | cons x xs ih =>
    have hx : ∀ y ∈ xs, rowLe x y = true := (List.pairwise_cons.mp h).1
    have hxs : pairwiseLe xs := (List.pairwise_cons.mp h).2
    by_cases hle : rowLe x r = true
    · rw [insertRow, if_pos hle]
      refine List.Pairwise.cons ?_ (ih hxs)
      intro y hy
      rcases (mem_insertRow r y xs).mp hy with rfl | hy'
      · exact hle
      · exact hx y hy'
    · rw [insertRow, if_neg hle]
      have hrx : rowLe r x = true := by
        rcases rowLe_total x r with h' | h'
        · exact absurd h' hle
        · exact h'
      refine List.Pairwise.cons ?_ (List.Pairwise.cons hx hxs)
      intro y hy
      rcases List.mem_cons.mp hy with rfl | hy'
      · exact hrx
      · exact rowLe_trans r x y hrx (hx y hy')

theorem filter_insertRow_neg (p : Row → Bool) (r : Row) (l : List Row)
    (hp : p r = false) :
    (insertRow r l).filter p = l.filter p := by
  induction l with
  | nil => simp [insertRow, hp]
  | cons x xs ih =>
    by_cases hle : rowLe x r = true
    · rw [insertRow, if_pos hle]
      cases hpx : p x <;> simp [List.filter_cons, hpx, ih]
    · rw [insertRow, if_neg hle]
      simp [List.filter_cons, hp]

theorem filter_insertRow_pos (p : Row → Bool) (r : Row) (l : List Row)
    (hp : p r = true) (hl : pairwiseLe l)
    (hall : ∀ x, p x = true → rowLe x r = true) :
    (insertRow r l).filter p = l.filter p ++ [r] := by
  induction l with
  | nil => simp [insertRow, hp]
  | cons x xs ih =>
    have hx : ∀ y ∈ xs, rowLe x y = true := (List.pairwise_cons.mp hl).1
    have hxs : pairwiseLe xs := (List.pairwise_cons.mp hl).2
    by_cases hle : rowLe x r = true
    · rw [insertRow, if_pos hle]
      cases hpx : p x <;> simp [List.filter_cons, hpx, ih hxs]
    · rw [insertRow, if_neg hle]
      have hnone : (x :: xs).filter p = [] := by
        rw [List.filter_eq_nil_iff]
        intro y hy
        intro hpy
        rcases List.mem_cons.mp hy with rfl | hy'
        · exact hle (hall y hpy)
        · exact hle (rowLe_trans x y r (hx y hy') (hall y hpy))
      rw [List.filter_cons_of_pos hp, hnone]
      rfl

theorem filter_foldl_insert (p : Row → Bool) (l acc : List Row)
    (hacc : pairwiseLe acc)
    (hall : ∀ a b, p a = true → p b = true → rowLe a b = true) :
    (l.foldl (fun acc r => insertRow r acc) acc).filter p
      = acc.filter p ++ l.filter p := by
  induction l generalizing acc with
  | nil => simp
  | cons r rs ih =>
    rw [List.foldl_cons, ih (insertRow r acc) (pairwise_insertRow r acc hacc)]
    cases hpr : p r with
    | false =>
      rw [filter_insertRow_neg p r acc hpr, List.filter_cons_of_neg (by simp [hpr])]
    | true =>
      rw [filter_insertRow_pos p r acc hpr hacc (fun x hx => hall x r hx hpr)]
      rw [List.filter_cons_of_pos hpr, List.append_assoc]
      rfl

theorem filter_sortRows (p : Row → Bool) (l : List Row)
    (hall : ∀ a b, p a = true → p b = true → rowLe a b = true) :
    (sortRows l).filter p = l.filter p := by
  unfold sortRows
  rw [filter_foldl_insert p l [] List.Pairwise.nil hall]
  rfl

theorem find?_eq_head_filter (p : Row → Bool) (l : List Row) :
    l.find? p = (l.filter p).head? := by
  induction l with
  | nil => rfl
  | cons x xs ih =>
    cases hpx : p x with
    | true => rw [List.find?_cons_of_pos _ hpx, List.filter_cons_of_pos hpx]; rfl
    | false => rw [List.find?_cons_of_neg _ (by simp [hpx]), List.filter_cons_of_neg (by simp [hpx]), ih]

theorem valEq_eq (x k : Value) (h : valEq x k = true) : x = k := by
  cases x <;> cases k <;> simp [valEq] at h ⊢ <;> exact h

theorem nameMatches_tied (e a b : Row)
    (ha : nameMatches e a = true) (hb : nameMatches e b = true) :
    rowLe a b = true := by
  unfold nameMatches at ha hb
  have ha' := valEq_eq _ _ ha
  have hb' := valEq_eq _ _ hb
  unfold rowLe
  rw [ha', hb']
  exact valLe_refl _

/-- First `B`-keyed actual row (age 21). -/
def rowB1 : Row :=
  [("playerName", Value.str "B"), ("age", Value.num 21), ("runs", Value.num 100),
   ("wickets", Value.num 5), ("eventType", Value.str "odi"),
   ("playerType", Value.str "Bowler")]

/-- Second `B`-keyed actual row (age 22). -/
def rowB2 : Row :=
  [("playerName", Value.str "B"), ("age", Value.num 22), ("runs", Value.num 100),
   ("wickets", Value.num 5), ("eventType", Value.str "odi"),
   ("playerType", Value.str "Bowler")]

/-- Actual frame in which `playerName` `B` occurs twice. -/
def actC6 : DataFrame :=
  ⟨["playerName", "age", "runs", "wickets", "eventType", "playerType"],
   [rowB1, rowB2]⟩

/-- The other admissible result of sorting `actC6.rows` by `playerName`:
both rows carry the same key, so both relative orders are sorted
permutations. -/
def sAltC6 : List Row := [rowB2, rowB1]

/-- Expected row equal to the later duplicate `rowB2`. -/
def eC6 : Row := rowB2

/-- C6 counterexample: `playerName` `B` occurs twice in `actC6`, and the
reordering `sAltC6` is an admissible outcome of `sort_values` (a sorted
permutation — the two rows share the key, so their order after an
unstable sort is unspecified).  Under that admissible outcome the first
`B` match is `rowB2`, not the earliest original-order row `rowB1`, and
the verdict for `eC6` is `PASS` where comparison against the earliest
match yields `FAIL`.  The code therefore does not guarantee comparison
against the earliest matching row in original order. -/
theorem validate_output_first_match_counterexample :
    1 < (actC6.rows.filter (nameMatches eC6)).length ∧
    sortedByName actC6.rows sAltC6 ∧
    sAltC6.find? (nameMatches eC6) ≠ actC6.rows.find? (nameMatches eC6) ∧
    rowVerdictPure sAltC6 eC6 = Value.str "PASS" ∧
    rowVerdictPure actC6.rows eC6 = Value.str "FAIL" :=
  ⟨by decide, ⟨List.Perm.swap rowB2 rowB1 [], by decide⟩, by decide, by decide, by decide⟩

/-- C6 (amended): for every admissible result `s` of sorting the actual
rows by `playerName`, the validator's first-match lookup against `s`
finds a match iff the actual rows contain one, and the row it finds is a
row of the actual frame with a matching `playerName` — but it is the
earliest matching row in the original order only under the additional
assumption that the sort preserved the relative order of the matching
rows (a stable sort, which pandas' default quicksort does not
promise). -/
theorem validate_output_sorted_match (actual : DataFrame) (s : List Row) (e : Row)
    (hs : sortedByName actual.rows s) :
    (s.find? (nameMatches e) = none ↔ actual.rows.find? (nameMatches e) = none) ∧
    (∀ a, s.find? (nameMatches e) = some a → a ∈ actual.rows ∧ nameMatches e a = true) ∧
    (s.filter (nameMatches e) = actual.rows.filter (nameMatches e) →
      s.find? (nameMatches e) = actual.rows.find? (nameMatches e)) := by
  obtain ⟨hperm, _⟩ := hs
  refine ⟨?_, ?_, ?_⟩
  · rw [List.find?_eq_none, List.find?_eq_none]
    constructor
    · intro h x hx
      exact h x (hperm.mem_iff.mp hx)
    · intro h x hx
      exact h x (hperm.mem_iff.mpr hx)
  · intro a ha
    exact ⟨hperm.mem_iff.mpr (List.mem_of_find?_eq_some ha), List.find?_some ha⟩
  · intro hstable
    rw [find?_eq_head_filter, find?_eq_head_filter, hstable]

theorem validate_output_sorted_match_witness :
    (sAltC6.find? (nameMatches eC6) = none ↔ actC6.rows.find? (nameMatches eC6) = none) :=
  (validate_output_sorted_match actC6 sAltC6 eC6
    ⟨List.Perm.swap rowB2 rowB1 [], by decide⟩).1
